import Mathlib

/-!
Shallow embedding of `src/data_generation.py` (Strategic-Marketing-Mix-Optimizer):
the synthetic marketing-mix data generator `generate_mmm_data` and its inner
transforms `apply_adstock` and `apply_saturation`.

Python floats are modelled as real numbers.  The seeded numpy random source
(`np.random.seed(42)` followed by gamma, normal and noise draws in a fixed
order) is modelled as an explicit `RandomSource` value: a triple of
deterministic streams, one per kind of draw the pipeline makes.  Dates are
modelled as day offsets from 2021-01-01 (with `freq='W'` the first date is
the first Sunday, 2021-01-03, i.e. offset 2, and consecutive dates are 7 days
apart).
-/

namespace MMM

/-- The seeded random source.  `np.random.seed(seed)` makes every later draw a
deterministic function of the seed, so the state after seeding is modelled as
three deterministic streams: `gammaDraw t` is the `t`-th Gamma(shape=2,
scale=1000) draw used for TV spend, `normalDraw t` the `t`-th
Normal(2000, 500) draw used for Search spend, and `noiseDraw t` the `t`-th
Normal(0, 500) draw used for sales noise. -/
structure RandomSource where
  gammaDraw : ℕ → ℝ
  normalDraw : ℕ → ℝ
  noiseDraw : ℕ → ℝ

/-- Helper for `apply_adstock`: the loop
`for t in range(1, len(spend)): adstocked[t] = spend[t] + alpha * adstocked[t-1]`,
with `prev` the output value already stored at the previous index. -/
noncomputable def adstockFrom (alpha prev : ℝ) : List ℝ → List ℝ
  | [] => []
  | x :: xs => (x + alpha * prev) :: adstockFrom alpha (x + alpha * prev) xs

/-- `apply_adstock(spend, alpha)` from the source:
`adstocked_spend = np.zeros_like(spend)` then the loop starting at `t = 1`.
Index 0 is never written by the loop, so it keeps the value `0` that
`np.zeros_like` put there. -/
noncomputable def apply_adstock (spend : List ℝ) (alpha : ℝ) : List ℝ :=
  match spend with
  | [] => []
  | _ :: rest => 0 :: adstockFrom alpha 0 rest

/-- `apply_saturation(spend, K) = spend / (spend + K)`, elementwise. -/
noncomputable def apply_saturation (spend : List ℝ) (K : ℝ) : List ℝ :=
  spend.map (fun x => x / (x + K))

/-- `pd.date_range(start='2021-01-01', periods=weeks, freq='W')`, as day
offsets from 2021-01-01: weekly Sundays 2, 9, 16, …. -/
def date_range (weeks : ℕ) : List ℕ :=
  (List.range weeks).map (fun t => 2 + 7 * t)

/-- `tv_spend = np.random.gamma(shape=2, scale=1000, size=weeks)`:
the first `weeks` gamma draws of the seeded source. -/
def tv_spend_raw (src : RandomSource) (weeks : ℕ) : List ℝ :=
  (List.range weeks).map src.gammaDraw

/-- `tv_spend[weeks//3 : weeks//3+10] += 5000`.  Python slice assignment
clamps the slice to existing indices, so this is: add 5000 at each index `i`
with `weeks/3 ≤ i < weeks/3 + 10` that exists in the list. -/
def campaign_boost (weeks : ℕ) (tv : List ℝ) : List ℝ :=
  tv.mapIdx (fun i x => if weeks / 3 ≤ i ∧ i < weeks / 3 + 10 then x + 5000 else x)

/-- TV spend after the campaign boost. -/
def tv_spend (src : RandomSource) (weeks : ℕ) : List ℝ :=
  campaign_boost weeks (tv_spend_raw src weeks)

/-- `search_spend = np.clip(np.random.normal(2000, 500, weeks), 500, None)`:
normal draws, each clamped from below to 500. -/
def search_spend (src : RandomSource) (weeks : ℕ) : List ℝ :=
  ((List.range weeks).map src.normalDraw).map (fun x => max x 500)

/-- `baseline_sales = 10000`. -/
def baseline_sales : ℝ := 10000

/-- `tv_effect = 0.5 * apply_saturation(apply_adstock(tv_spend, 0.6), 3000)`. -/
noncomputable def tv_effect (src : RandomSource) (weeks : ℕ) : List ℝ :=
  (apply_saturation (apply_adstock (tv_spend src weeks) 0.6) 3000).map (fun x => 0.5 * x)

/-- `search_effect = 0.3 * apply_saturation(apply_adstock(search_spend, 0.1), 500)`. -/
noncomputable def search_effect (src : RandomSource) (weeks : ℕ) : List ℝ :=
  (apply_saturation (apply_adstock (search_spend src weeks) 0.1) 500).map (fun x => 0.3 * x)

/-- `seasonality = 1 + 0.2 * np.sin(2 * np.pi * np.arange(weeks) / 52)`. -/
noncomputable def seasonality (weeks : ℕ) : List ℝ :=
  (List.range weeks).map (fun t : ℕ => 1 + 0.2 * Real.sin (2 * Real.pi * (t : ℝ) / 52))

/-- `np.random.normal(0, 500, size=weeks)`: the noise added to sales,
the first `weeks` noise draws of the seeded source. -/
def noise_list (src : RandomSource) (weeks : ℕ) : List ℝ :=
  (List.range weeks).map src.noiseDraw

/-- `sales = (baseline_sales + tv_effect*50000 + search_effect*20000) * seasonality`
followed by `sales += np.random.normal(0, 500, size=weeks)`; all operations
elementwise over equal-length arrays. -/
noncomputable def sales_list (src : RandomSource) (weeks : ℕ) : List ℝ :=
  List.zipWith (fun s n => s + n)
    (List.zipWith (fun e z => e * z)
      (List.zipWith (fun a b => baseline_sales + a * 50000 + b * 20000)
        (tv_effect src weeks) (search_effect src weeks))
      (seasonality weeks))
    (noise_list src weeks)

/-- The output DataFrame: columns `week`, `tv_spend`, `search_spend`, `sales`. -/
structure Dataset where
  week : List ℕ
  tv_spend : List ℝ
  search_spend : List ℝ
  sales : List ℝ

/-- `generate_mmm_data(weeks)` from the source, with the seeded random source
made an explicit argument (the code obtains it by calling
`np.random.seed(42)` at function entry, making every draw a deterministic
function of the hard-coded seed 42). -/
noncomputable def generate_mmm_data (src : RandomSource) (weeks : ℕ) : Dataset :=
  { week := date_range weeks
    tv_spend := tv_spend src weeks
    search_spend := search_spend src weeks
    sales := sales_list src weeks }

/-- The only error the pipeline can raise: the `ValueError` that
`pd.date_range` throws when `periods` is negative. -/
inductive GenError where
  | invalidPeriods
deriving DecidableEq

/-- `generate_mmm_data` on an arbitrary integer `weeks` argument.
The source has no validation of its own; the first statement that touches
`weeks` is `pd.date_range(..., periods=weeks, ...)`, which raises
`ValueError` for negative `periods` (before any random draw is consumed) and
accepts `periods = 0`, producing an empty frame.  `np.random.seed(42)` runs
first but draws nothing. -/
noncomputable def generate_mmm_data_int (src : RandomSource) (weeks : ℤ) :
    Except GenError Dataset :=
  if weeks < 0 then Except.error GenError.invalidPeriods
  else Except.ok (generate_mmm_data src weeks.toNat)

/-- The all-zero random source, used to instantiate theorems at concrete
inputs. -/
def zeroSource : RandomSource :=
  { gammaDraw := fun _ => 0, normalDraw := fun _ => 0, noiseDraw := fun _ => 0 }

/-! ### Helper lemmas -/

lemma length_adstockFrom (alpha : ℝ) :
    ∀ (prev : ℝ) (xs : List ℝ), (adstockFrom alpha prev xs).length = xs.length := by
  intro prev xs
  induction xs generalizing prev with
  | nil => rfl
  | cons x xs ih => simp [adstockFrom, ih]

lemma length_apply_adstock (spend : List ℝ) (alpha : ℝ) :
    (apply_adstock spend alpha).length = spend.length := by
  cases spend with
  | nil => rfl
  | cons x xs => simp [apply_adstock, length_adstockFrom]

lemma length_apply_saturation (spend : List ℝ) (K : ℝ) :
    (apply_saturation spend K).length = spend.length := by
  simp [apply_saturation]

lemma getElem?_zipWith_some {f : ℝ → ℝ → ℝ} {l1 l2 : List ℝ} {i : ℕ} {a b : ℝ}
    (h1 : l1[i]? = some a) (h2 : l2[i]? = some b) :
    (List.zipWith f l1 l2)[i]? = some (f a b) := by
  rw [List.getElem?_zipWith_eq_some]
  exact ⟨a, b, h1, h2, rfl⟩

lemma getElem?_mapIdx_some {l : List ℝ} {f : ℕ → ℝ → ℝ} {i : ℕ} {a : ℝ}
    (h : l[i]? = some a) : (l.mapIdx f)[i]? = some (f i a) := by
  obtain ⟨hi, hv⟩ := List.getElem?_eq_some.mp h
  have hi2 : i < (l.mapIdx f).length := by
    simp only [List.length_mapIdx]; exact hi
  rw [List.getElem?_eq_some]
  refine ⟨hi2, ?_⟩
  have hg := List.get_mapIdx l f i hi hi2
  rw [List.get_eq_getElem, List.get_eq_getElem, hv] at hg
  exact hg

lemma getElem?_forall2_le {l1 l2 : List ℝ} (h : List.Forall₂ (fun x y => x ≤ y) l1 l2) :
    ∀ {i : ℕ} {a b : ℝ}, l1[i]? = some a → l2[i]? = some b → a ≤ b := by
  induction h with
  | nil => intro i a b h1 _; simp at h1
  | cons hxy _ ih =>
    intro i a b h1 h2
    cases i with
    | zero =>
      simp only [List.getElem?_cons_zero, Option.some_inj] at h1 h2
      rw [← h1, ← h2]; exact hxy
    | succ j =>
      simp only [List.getElem?_cons_succ] at h1 h2
      exact ih h1 h2

lemma adstockFrom_nonneg {alpha : ℝ} (halpha : 0 ≤ alpha) :
    ∀ {prev : ℝ} {xs : List ℝ}, 0 ≤ prev → (∀ x ∈ xs, 0 ≤ x) →
      ∀ y ∈ adstockFrom alpha prev xs, 0 ≤ y := by
  intro prev xs
  induction xs generalizing prev with
  | nil => intro _ _ y hy; simp [adstockFrom] at hy
  | cons x xs ih =>
    intro hprev hxs y hy
    have hx : 0 ≤ x := hxs x (List.mem_cons_self x xs)
    have hhead : 0 ≤ x + alpha * prev := by positivity
    simp only [adstockFrom, List.mem_cons] at hy
    rcases hy with hy | hy
    · rw [hy]; exact hhead
    · exact ih hhead (fun z hz => hxs z (List.mem_cons_of_mem x hz)) y hy

lemma adstockFrom_mono {a1 a2 : ℝ} (h0 : 0 ≤ a1) (h12 : a1 ≤ a2) :
    ∀ {p1 p2 : ℝ} {xs : List ℝ}, 0 ≤ p1 → p1 ≤ p2 → (∀ x ∈ xs, 0 ≤ x) →
      List.Forall₂ (fun x y => x ≤ y) (adstockFrom a1 p1 xs) (adstockFrom a2 p2 xs) := by
  intro p1 p2 xs
  induction xs generalizing p1 p2 with
  | nil => intro _ _ _; simp [adstockFrom]
  | cons x xs ih =>
    intro hp1 hp12 hxs
    have hx : 0 ≤ x := hxs x (List.mem_cons_self x xs)
    have hhead : x + a1 * p1 ≤ x + a2 * p2 := by
      have h1 : a1 * p1 ≤ a2 * p1 := mul_le_mul_of_nonneg_right h12 hp1
      have h2 : a2 * p1 ≤ a2 * p2 := mul_le_mul_of_nonneg_left hp12 (h0.trans h12)
      linarith
    have hheadpos : 0 ≤ x + a1 * p1 := by positivity
    exact List.Forall₂.cons hhead
      (ih hheadpos hhead (fun z hz => hxs z (List.mem_cons_of_mem x hz)))

lemma length_tv_spend (src : RandomSource) (weeks : ℕ) :
    (tv_spend src weeks).length = weeks := by
  simp [tv_spend, campaign_boost, tv_spend_raw, List.length_mapIdx]

lemma length_search_spend (src : RandomSource) (weeks : ℕ) :
    (search_spend src weeks).length = weeks := by
  simp [search_spend]

lemma length_seasonality (weeks : ℕ) : (seasonality weeks).length = weeks := by
  rw [seasonality, List.length_map, List.length_range]

lemma length_noise_list (src : RandomSource) (weeks : ℕ) :
    (noise_list src weeks).length = weeks := by
  simp [noise_list]

lemma length_tv_effect (src : RandomSource) (weeks : ℕ) :
    (tv_effect src weeks).length = weeks := by
  simp [tv_effect, length_apply_saturation, length_apply_adstock, length_tv_spend]

lemma length_search_effect (src : RandomSource) (weeks : ℕ) :
    (search_effect src weeks).length = weeks := by
  simp [search_effect, length_apply_saturation, length_apply_adstock, length_search_spend]

lemma length_sales_list (src : RandomSource) (weeks : ℕ) :
    (sales_list src weeks).length = weeks := by
  simp [sales_list, List.length_zipWith, length_tv_effect, length_search_effect,
    length_seasonality, length_noise_list]

lemma length_date_range (weeks : ℕ) : (date_range weeks).length = weeks := by
  simp [date_range]

lemma tv_spend_getElem_eq (src : RandomSource) {weeks i : ℕ} (h : i < weeks) :
    (tv_spend src weeks)[i]? =
      some (if weeks / 3 ≤ i ∧ i < weeks / 3 + 10
        then src.gammaDraw i + 5000 else src.gammaDraw i) := by
  have hraw : (tv_spend_raw src weeks)[i]? = some (src.gammaDraw i) := by
    simp [tv_spend_raw, List.getElem?_map, List.getElem?_range h]
  exact getElem?_mapIdx_some hraw

lemma tv_spend_getElem_inv {src : RandomSource} {weeks i : ℕ} {x : ℝ}
    (h : (tv_spend src weeks)[i]? = some x) :
    i < weeks ∧ x = (if weeks / 3 ≤ i ∧ i < weeks / 3 + 10
      then src.gammaDraw i + 5000 else src.gammaDraw i) := by
  have hi : i < weeks := by
    have := (List.getElem?_eq_some.mp h).1
    rwa [length_tv_spend] at this
  have h2 := tv_spend_getElem_eq src hi
  rw [h] at h2
  exact ⟨hi, Option.some_inj.mp h2⟩

lemma date_range_getElem_inv {weeks i d : ℕ} (h : (date_range weeks)[i]? = some d) :
    i < weeks ∧ d = 2 + 7 * i := by
  have hi : i < weeks := by
    have := (List.getElem?_eq_some.mp h).1
    rwa [length_date_range] at this
  have h2 : (date_range weeks)[i]? = some (2 + 7 * i) := by
    simp [date_range, List.getElem?_map, List.getElem?_range hi]
  rw [h] at h2
  exact ⟨hi, Option.some_inj.mp h2⟩

/-! ### Claim theorems -/

/-- C1: the claim states that `apply_adstock` leaves the element at index 0
equal to `spend[0]` and returns a one-element input unchanged.  The code
initialises the output with `np.zeros_like` and its loop starts at `t = 1`,
so index 0 keeps the value 0: on the one-element input `[7]` (with α = 1/2)
the code returns `[0]`, not `[7]`. -/
theorem C1_adstock_base_case_failing_input :
    apply_adstock [(7 : ℝ)] (1 / 2) = [0] ∧ (0 : ℝ) ≠ 7 := by
  exact ⟨rfl, by norm_num⟩

/-- C3: for every K > 0, `apply_saturation` maps each element x to
x / (x + K); on nonnegative inputs this map is monotone (strictly increasing
on distinct inputs), its values lie in [0, 1), it sends K to 1/2 exactly and
0 to 0. -/
theorem C3_saturation_properties (K : ℝ) (hK : 0 < K) :
    (∀ spend : List ℝ, apply_saturation spend K = spend.map (fun x => x / (x + K)))
    ∧ (∀ x y : ℝ, 0 ≤ x → x ≤ y → x / (x + K) ≤ y / (y + K))
    ∧ (∀ x y : ℝ, 0 ≤ x → x < y → x / (x + K) < y / (y + K))
    ∧ (∀ x : ℝ, 0 ≤ x → 0 ≤ x / (x + K) ∧ x / (x + K) < 1)
    ∧ K / (K + K) = 1 / 2
    ∧ (0 : ℝ) / (0 + K) = 0 := by
  refine ⟨fun spend => rfl, ?_, ?_, ?_, ?_, by simp⟩
  · intro x y hx hxy
    have hxK : 0 < x + K := by linarith
    have hyK : 0 < y + K := by linarith
    rw [div_le_div_iff₀ hxK hyK]
    nlinarith
  · intro x y hx hxy
    have hxK : 0 < x + K := by linarith
    have hyK : 0 < y + K := by linarith
    rw [div_lt_div_iff₀ hxK hyK]
    nlinarith
  · intro x hx
    have hxK : 0 < x + K := by linarith
    exact ⟨by positivity, by rw [div_lt_one hxK]; linarith⟩
  · rw [div_eq_div_iff (by linarith : (0:ℝ) < K + K).ne' (by norm_num : ((2:ℝ) ≠ 0))]
    ring

/-- Witness for C3 at the concrete half-saturation constant K = 1. -/
theorem C3_saturation_properties_witness :
    (∀ spend : List ℝ, apply_saturation spend 1 = spend.map (fun x => x / (x + 1)))
    ∧ (∀ x y : ℝ, 0 ≤ x → x ≤ y → x / (x + 1) ≤ y / (y + 1))
    ∧ (∀ x y : ℝ, 0 ≤ x → x < y → x / (x + 1) < y / (y + 1))
    ∧ (∀ x : ℝ, 0 ≤ x → 0 ≤ x / (x + 1) ∧ x / (x + 1) < 1)
    ∧ (1 : ℝ) / (1 + 1) = 1 / 2
    ∧ (0 : ℝ) / (0 + 1) = 0 :=
  C3_saturation_properties 1 (by norm_num)

/-- C5: the generator is a pure function of the seeded random source and the
week count: two invocations on equal seeds (hence equal post-seeding draw
streams) and equal `weeks` yield equal Datasets; the embedding has no other
input, i.e. no hidden entropy source. -/
theorem C5_determinism (s1 s2 : RandomSource) (weeks : ℕ) (h : s1 = s2) :
    generate_mmm_data s1 weeks = generate_mmm_data s2 weeks := by
  rw [h]

/-- Witness for C5 at the concrete source `zeroSource` and `weeks = 3`. -/
theorem C5_determinism_witness :
    generate_mmm_data zeroSource 3 = generate_mmm_data zeroSource 3 :=
  C5_determinism zeroSource zeroSource 3 rfl

/-- C9: every column of the Dataset has exactly `weeks` elements, and the
week column is strictly increasing in the index, so index t in every column
refers to the same, t-th, week. -/
theorem C9_lengths_and_alignment (src : RandomSource) (weeks : ℕ) :
    ((generate_mmm_data src weeks).week.length = weeks
      ∧ (generate_mmm_data src weeks).tv_spend.length = weeks
      ∧ (generate_mmm_data src weeks).search_spend.length = weeks
      ∧ (generate_mmm_data src weeks).sales.length = weeks)
    ∧ (∀ i j d1 d2 : ℕ, i < j →
        (generate_mmm_data src weeks).week[i]? = some d1 →
        (generate_mmm_data src weeks).week[j]? = some d2 → d1 < d2) := by
  simp only [generate_mmm_data]
  constructor
  · exact ⟨length_date_range weeks, length_tv_spend src weeks,
      length_search_spend src weeks, length_sales_list src weeks⟩
  · intro i j d1 d2 hij h1 h2
    obtain ⟨hi, rfl⟩ := date_range_getElem_inv h1
    obtain ⟨hj, rfl⟩ := date_range_getElem_inv h2
    omega

/-- Witness for C9 at `weeks = 2`: the two dates are 2 and 9 days after
2021-01-01 and are in ascending order. -/
theorem C9_lengths_and_alignment_witness : (2 : ℕ) < 9 :=
  (C9_lengths_and_alignment zeroSource 2).2 0 1 2 9 (by norm_num) rfl rfl

/-- C4: TV spend at every existing index i is the raw gamma draw plus a flat
5000 exactly when weeks / 3 ≤ i < weeks / 3 + 10 (the Python slice
assignment clamps the window to existing indices, so no index outside the
list is touched and no error occurs); for weeks = 156 that window is exactly
the indices 52 through 61 inclusive. -/
theorem C4_campaign_boost_window (src : RandomSource) (weeks i : ℕ) (h : i < weeks) :
    (generate_mmm_data src weeks).tv_spend[i]? =
      some (src.gammaDraw i + if weeks / 3 ≤ i ∧ i < weeks / 3 + 10 then 5000 else 0)
    ∧ (∀ k : ℕ, (156 / 3 ≤ k ∧ k < 156 / 3 + 10) ↔ (52 ≤ k ∧ k ≤ 61)) := by
  constructor
  · show (tv_spend src weeks)[i]? = _
    rw [tv_spend_getElem_eq src h]
    congr 1
    split_ifs <;> ring
  · intro k
    omega

/-- Witness for C4 at weeks = 1, i = 0: the single index lies in the boost
window [0, 10), so it receives the 5000 boost. -/
theorem C4_campaign_boost_window_witness :
    (generate_mmm_data zeroSource 1).tv_spend[0]? =
      some (zeroSource.gammaDraw 0 + if 1 / 3 ≤ 0 ∧ 0 < 1 / 3 + 10 then 5000 else 0)
    ∧ (∀ k : ℕ, (156 / 3 ≤ k ∧ k < 156 / 3 + 10) ↔ (52 ≤ k ∧ k ≤ 61)) :=
  C4_campaign_boost_window zeroSource 1 0 (by norm_num)

/-- C7: in every generated Dataset, every Search spend value is at least 500
(the np.clip floor), and no TV spend value is negative.  The support of the
Gamma distribution is nonnegative, which the embedding states as the
hypothesis that every gamma draw of the source is nonnegative. -/
theorem C7_spend_floors (src : RandomSource) (weeks : ℕ)
    (hg : ∀ i, 0 ≤ src.gammaDraw i) :
    (∀ x ∈ (generate_mmm_data src weeks).search_spend, 500 ≤ x)
    ∧ (∀ x ∈ (generate_mmm_data src weeks).tv_spend, 0 ≤ x) := by
  constructor
  · intro x hx
    simp only [generate_mmm_data, search_spend, List.mem_map] at hx
    obtain ⟨y, _, rfl⟩ := hx
    exact le_max_right y 500
  · intro x hx
    have hx2 : x ∈ tv_spend src weeks := hx
    obtain ⟨i, hi⟩ := List.mem_iff_getElem?.mp hx2
    obtain ⟨hiw, hval⟩ := tv_spend_getElem_inv hi
    rw [hval]
    split_ifs
    · have := hg i
      linarith
    · exact hg i

/-- Witness for C7 at the all-zero source (whose gamma draws are trivially
nonnegative) and weeks = 2. -/
theorem C7_spend_floors_witness :
    (∀ x ∈ (generate_mmm_data zeroSource 2).search_spend, 500 ≤ x)
    ∧ (∀ x ∈ (generate_mmm_data zeroSource 2).tv_spend, 0 ≤ x) :=
  C7_spend_floors zeroSource 2 (fun _ => le_rfl)

/-- C8: for a fixed spend sequence with nonnegative entries, the adstock
output at any index t ≥ 1 is monotonically nondecreasing in the decay
parameter α (for 0 ≤ α₁ ≤ α₂). -/
theorem C8_adstock_monotone_in_alpha (spend : List ℝ) (hs : ∀ x ∈ spend, 0 ≤ x)
    (a1 a2 : ℝ) (h0 : 0 ≤ a1) (h12 : a1 ≤ a2) (t : ℕ) (_ht : 1 ≤ t) (u v : ℝ)
    (hu : (apply_adstock spend a1)[t]? = some u)
    (hv : (apply_adstock spend a2)[t]? = some v) : u ≤ v := by
  cases spend with
  | nil => simp [apply_adstock] at hu
  | cons x xs =>
    have hxs : ∀ z ∈ xs, 0 ≤ z := fun z hz => hs z (List.mem_cons_of_mem x hz)
    have hmono := adstockFrom_mono h0 h12 (le_refl (0 : ℝ)) (le_refl (0 : ℝ)) hxs
    have hfull : List.Forall₂ (fun p q => p ≤ q)
        (apply_adstock (x :: xs) a1) (apply_adstock (x :: xs) a2) :=
      List.Forall₂.cons le_rfl hmono
    exact getElem?_forall2_le hfull hu hv

/-- Witness for C8 on spend [1, 2] with α₁ = 0, α₂ = 1/2 at t = 1: both
outputs there equal 2 (the previous output is the zero kept at index 0). -/
theorem C8_adstock_monotone_in_alpha_witness : (2 : ℝ) ≤ 2 :=
  C8_adstock_monotone_in_alpha [1, 2] (by norm_num) 0 (1 / 2) le_rfl (by norm_num)
    1 le_rfl 2 2 (by norm_num [apply_adstock, adstockFrom])
    (by norm_num [apply_adstock, adstockFrom])

/-- C10: with nonnegative spend and 0 ≤ α < 1, every adstock output value is
nonnegative, so for any K > 0 (the pipeline uses K = 3000 for TV and K = 500
for Search) the saturation denominator y + K is strictly positive, hence
nonzero: the division in apply_saturation is never a division by zero. -/
theorem C10_adstock_nonneg_denominator_positive (spend : List ℝ)
    (hs : ∀ x ∈ spend, 0 ≤ x) (alpha : ℝ) (h0 : 0 ≤ alpha) (_h1 : alpha < 1)
    (K : ℝ) (hK : 0 < K) :
    (∀ y ∈ apply_adstock spend alpha, 0 ≤ y)
    ∧ (∀ y ∈ apply_adstock spend alpha, 0 < y + K ∧ y + K ≠ 0) := by
  have hnn : ∀ y ∈ apply_adstock spend alpha, 0 ≤ y := by
    cases spend with
    | nil => intro y hy; simp [apply_adstock] at hy
    | cons x xs =>
      intro y hy
      simp only [apply_adstock, List.mem_cons] at hy
      rcases hy with rfl | hy
      · exact le_rfl
      · exact adstockFrom_nonneg h0 le_rfl
          (fun z hz => hs z (List.mem_cons_of_mem x hz)) y hy
  refine ⟨hnn, fun y hy => ?_⟩
  have h2 := hnn y hy
  have h3 : 0 < y + K := by linarith
  exact ⟨h3, h3.ne'⟩

/-- Witness for C10 on spend [1, 2] with α = 1/2 and K = 3000. -/
theorem C10_adstock_nonneg_denominator_positive_witness :
    (∀ y ∈ apply_adstock [(1 : ℝ), 2] (1 / 2), 0 ≤ y)
    ∧ (∀ y ∈ apply_adstock [(1 : ℝ), 2] (1 / 2), 0 < y + 3000 ∧ y + 3000 ≠ 0) :=
  C10_adstock_nonneg_denominator_positive [1, 2] (by norm_num) (1 / 2)
    (by norm_num) (by norm_num) 3000 (by norm_num)

/-- C2: at every week index t the sales value equals
(10000 + 0.5·50000·effect_tv[t] + 0.3·20000·effect_search[t]) · seasonality[t]
+ noise[t], with seasonality[t] = 1 + 0.2·sin(2πt/52), effect_tv and
effect_search the saturation-of-adstock outputs of the two channels, and
noise[t] the t-th noise draw; no clamping is applied to sales. -/
theorem C2_sales_formula (src : RandomSource) (weeks t : ℕ) (ht : t < weeks)
    (etv es : ℝ)
    (htv : (apply_saturation (apply_adstock (tv_spend src weeks) 0.6) 3000)[t]? = some etv)
    (hse : (apply_saturation (apply_adstock (search_spend src weeks) 0.1) 500)[t]? = some es) :
    (generate_mmm_data src weeks).sales[t]? =
      some ((10000 + 0.5 * 50000 * etv + 0.3 * 20000 * es)
        * (1 + 0.2 * Real.sin (2 * Real.pi * (t : ℝ) / 52)) + src.noiseDraw t) := by
  have h1 : (tv_effect src weeks)[t]? = some (0.5 * etv) := by
    rw [tv_effect, List.getElem?_map, htv]
    rfl
  have h2 : (search_effect src weeks)[t]? = some (0.3 * es) := by
    rw [search_effect, List.getElem?_map, hse]
    rfl
  have h3 : (seasonality weeks)[t]? =
      some (1 + 0.2 * Real.sin (2 * Real.pi * (t : ℝ) / 52)) := by
    rw [seasonality, List.getElem?_map, List.getElem?_range ht]
    rfl
  have h4 : (noise_list src weeks)[t]? = some (src.noiseDraw t) := by
    rw [noise_list, List.getElem?_map, List.getElem?_range ht]
    rfl
  have hA := getElem?_zipWith_some
    (f := fun a b => baseline_sales + a * 50000 + b * 20000) h1 h2
  have hB := getElem?_zipWith_some (f := fun e z => e * z) hA h3
  have hC := getElem?_zipWith_some (f := fun s n => s + n) hB h4
  show (sales_list src weeks)[t]? = _
  rw [sales_list, hC]
  congr 1
  simp only [baseline_sales]
  ring

/-- Witness for C2 at the all-zero source with weeks = 1, t = 0: both
effect values there are 0 (the adstock output of a one-element list is [0],
and 0 / (0 + K) = 0). -/
theorem C2_sales_formula_witness :
    (generate_mmm_data zeroSource 1).sales[0]? =
      some ((10000 + 0.5 * 50000 * 0 + 0.3 * 20000 * 0)
        * (1 + 0.2 * Real.sin (2 * Real.pi * ((0 : ℕ) : ℝ) / 52)) + zeroSource.noiseDraw 0) :=
  C2_sales_formula zeroSource 1 0 (by norm_num) 0 0
    (by norm_num [apply_saturation, apply_adstock, adstockFrom, tv_spend,
      campaign_boost, tv_spend_raw, zeroSource, List.range_succ, List.mapIdx_cons,
      List.mapIdx_nil])
    (by norm_num [apply_saturation, apply_adstock, adstockFrom, search_spend,
      zeroSource, List.range_succ])

/-- C6, counterexample to the claim as stated: the code has no validation of
`weeks`; at weeks = 0 nothing fails (pd.date_range accepts periods = 0) and
a complete empty Dataset is returned, while the claim says weeks ≤ 0 fails
fast with no output. -/
theorem C6_counterexample_weeks_zero :
    generate_mmm_data_int zeroSource 0 =
      Except.ok { week := [], tv_spend := [], search_spend := [], sales := [] } := by
  rfl

/-- C6 as amended: a negative weeks argument fails fast (pd.date_range
rejects negative periods before any random draw is consumed) with no
output; weeks = 0 and every positive weeks succeed, returning a complete
Dataset whose every column has exactly weeks elements. -/
theorem C6_validation_amended (src : RandomSource) (w : ℤ) :
    (w < 0 → generate_mmm_data_int src w = Except.error GenError.invalidPeriods)
    ∧ (0 ≤ w → generate_mmm_data_int src w = Except.ok (generate_mmm_data src w.toNat)
        ∧ (generate_mmm_data src w.toNat).week.length = w.toNat
        ∧ (generate_mmm_data src w.toNat).tv_spend.length = w.toNat
        ∧ (generate_mmm_data src w.toNat).search_spend.length = w.toNat
        ∧ (generate_mmm_data src w.toNat).sales.length = w.toNat) := by
  constructor
  · intro hw
    rw [generate_mmm_data_int, if_pos hw]
  · intro hw
    refine ⟨?_, length_date_range _, length_tv_spend _ _,
      length_search_spend _ _, length_sales_list _ _⟩
    rw [generate_mmm_data_int, if_neg (not_lt.mpr hw)]

/-- Witness for C6 as amended: weeks = -1 errors out, weeks = 2 succeeds
with a 2-row Dataset. -/
theorem C6_validation_amended_witness :
    (generate_mmm_data_int zeroSource (-1) = Except.error GenError.invalidPeriods)
    ∧ (generate_mmm_data_int zeroSource 2 =
          Except.ok (generate_mmm_data zeroSource ((2 : ℤ).toNat))
        ∧ (generate_mmm_data zeroSource ((2 : ℤ).toNat)).week.length = (2 : ℤ).toNat
        ∧ (generate_mmm_data zeroSource ((2 : ℤ).toNat)).tv_spend.length = (2 : ℤ).toNat
        ∧ (generate_mmm_data zeroSource ((2 : ℤ).toNat)).search_spend.length = (2 : ℤ).toNat
        ∧ (generate_mmm_data zeroSource ((2 : ℤ).toNat)).sales.length = (2 : ℤ).toNat) :=
  ⟨(C6_validation_amended zeroSource (-1)).1 (by norm_num),
    (C6_validation_amended zeroSource 2).2 (by norm_num)⟩

end MMM
